import Mathlib

/-!
Verification development for the scratchlink-fakehub repository: a shallow
embedding of its Scratch-Link BLE peripheral emulator (WeDo and micro:bit
fake devices, JSON-RPC dispatch, notification push loops) together with
theorems settling the specification claims.

Sources embedded: `wedo.py`, `hub.py`, `microbit.py`,
`scratchlink_fakehub/hub.py`, `scratchlink_fakehub/microbit.py`,
`scratchlink_fakehub/peripheral_interface.py`.
Bytes are modelled as `Nat` (values < 256), byte strings as `List Nat`,
asynchronous side effects (websocket sends, task spawns, sleeps, callback
invocations) as an ordered effect list, and Python exceptions escaping a
handler as an `Option String` error component.
-/

namespace FakeHub

/-! ### Base64 codec

Models Python's `base64.b64encode` / `base64.b64decode` (with the default
`validate=False`: characters outside the alphabet are discarded, then the
data must form complete quads with trailing `=` padding, otherwise
`binascii.Error` is raised, modelled as `none`). -/

/-- Value of a base64 alphabet character; `none` for every other character
(including the padding character). -/
def b64CharVal (c : Char) : Option Nat :=
  if 'A' ≤ c ∧ c ≤ 'Z' then some (c.toNat - 65)
  else if 'a' ≤ c ∧ c ≤ 'z' then some (c.toNat - 97 + 26)
  else if '0' ≤ c ∧ c ≤ '9' then some (c.toNat - 48 + 52)
  else if c = '+' then some 62
  else if c = '/' then some 63
  else none

/-- The base64 alphabet character for a 6-bit value. -/
def b64Char (k : Nat) : Char :=
  "ABCDEFGHIJKLMNOPQRSTUVWXYZabcdefghijklmnopqrstuvwxyz0123456789+/".toList.getD k 'A'

/-- Standard base64 encoding of a byte list, three bytes per quad with
trailing padding. -/
def b64EncodeChunks : List Nat → List Char
  | a :: b :: c :: rest =>
      b64Char (a / 4) :: b64Char (a % 4 * 16 + b / 16) ::
      b64Char (b % 16 * 4 + c / 64) :: b64Char (c % 64) :: b64EncodeChunks rest
  | [a, b] => [b64Char (a / 4), b64Char (a % 4 * 16 + b / 16), b64Char (b % 16 * 4), '=']
  | [a] => [b64Char (a / 4), b64Char (a % 4 * 16), '=', '=']
  | [] => []

/-- `b64` from `wedo.py` / `microbit.py`: base64-encode a payload to text. -/
def b64 (payload : List Nat) : String :=
  String.mk (b64EncodeChunks payload)

/-- Decode a stream of base64 characters quad by quad; `=` padding is only
legal at the end of the final quad. -/
def b64DecodeQuads : List Char → Option (List Nat)
  | [] => some []
  | c1 :: c2 :: c3 :: c4 :: rest =>
    match b64CharVal c1, b64CharVal c2, b64CharVal c3, b64CharVal c4 with
    | some v1, some v2, some v3, some v4 =>
        (b64DecodeQuads rest).map
          (fun tl => (v1 * 4 + v2 / 16) :: (v2 % 16 * 16 + v3 / 4) :: (v3 % 4 * 64 + v4) :: tl)
    | some v1, some v2, some v3, none =>
        if c4 = '=' ∧ rest = [] then some [v1 * 4 + v2 / 16, v2 % 16 * 16 + v3 / 4]
        else none
    | some v1, some v2, none, none =>
        if c3 = '=' ∧ c4 = '=' ∧ rest = [] then some [v1 * 4 + v2 / 16]
        else none
    | _, _, _, _ => none
  | _ => none

/-- Python `base64.b64decode(s)` with `validate=False`: discard characters
outside the alphabet, then decode; incomplete final quads raise
(`binascii.Error`), modelled as `none`. -/
def pythonB64Decode (s : String) : Option (List Nat) :=
  b64DecodeQuads (s.toList.filter (fun c => (b64CharVal c).isSome ∨ c = '='))

/-- `b64_to_bytes` from `microbit.py` / `scratchlink_fakehub/microbit.py`:
`base64.b64decode(s) if s else b""` wrapped in `try/except` returning `b""`. -/
def b64_to_bytes (s : String) : List Nat :=
  if s = "" then []
  else
    match pythonB64Decode s with
    | some bs => bs
    | none => []

/-! ### Wire model

JSON-RPC messages and the side effects a handler performs, in order.
`serviceId` values are strings for the WeDo device and the number `61445`
for the micro:bit device, so they are modelled as a sum. -/

/-- A JSON `serviceId` value: a UUID string or a number. -/
inductive SvcId
  | str (s : String)
  | num (n : Nat)
deriving DecidableEq, Repr

/-- Outbound JSON documents sent over the websocket. -/
inductive OutMsg
  /-- `{"jsonrpc": "2.0", "id": msg_id, "result": {}}` -/
  | ack (id : Option Int)
  /-- `didDiscoverPeripheral` notification with `{name, peripheralId, rssi}`. -/
  | didDiscoverPeripheral (name : String) (peripheralId : String) (rssi : Int)
  /-- `characteristicDidChange` notification with a base64 `message`. -/
  | characteristicDidChange (serviceId : SvcId) (characteristicId : String) (message : String)
deriving DecidableEq, Repr

/-- One invocation of the application-facing `on_motor_power` hook. -/
structure MotorCall where
  port : Nat
  power : Nat
  direction : Int
deriving DecidableEq, Repr

/-- Side effects performed by a handler or push loop, in program order. -/
inductive Effect
  /-- `await ws.send(json.dumps(...))` -/
  | send (m : OutMsg)
  /-- `asyncio.create_task(self._push_loop())` -/
  | spawnLoop
  /-- `self.push_task.cancel()` -/
  | cancelLoop
  /-- `await asyncio.sleep(...)` — float seconds are modelled as integer
  milliseconds (the interval arithmetic itself is not claim-relevant). -/
  | sleep (ms : Nat)
  /-- `await self.on_motor_power(port, power, direction)` -/
  | callback (c : MotorCall)
  /-- `await self.on_display_text(...)` — carries the raw opcode arguments
  (the UTF-8 decode with `errors="replace"` is total and not re-modelled). -/
  | displayText (args : List Nat)
  /-- `await self.on_display_matrix(rows)` -/
  | displayMatrix (rows : List Nat)
  /-- `await self.on_clear_display()` -/
  | clearDisplay
  /-- `await self.on_set_pixel(x, y, on)` -/
  | setPixel (x y : Nat) (onFlag : Bool)
deriving DecidableEq, Repr

/-- `params` of an inbound JSON-RPC request (the fields the code reads). -/
structure Params where
  serviceId : Option SvcId := none
  characteristicId : Option String := none
  message : Option String := none
  /-- truthiness of `params.get("startNotifications")` (micro:bit `read`). -/
  readStartsNotifying : Bool := false
deriving DecidableEq, Repr

/-- An inbound JSON-RPC request: `{method, id, params}`. -/
structure InMsg where
  method : String
  id : Option Int := none
  params : Params := {}
deriving DecidableEq, Repr

/-- Result of running a Python handler: the mutated object state, the side
effects already performed, and the exception escaping the handler, if any
(effects before the raise have still happened). -/
structure HRes (σ : Type) where
  state : σ
  effects : List Effect
  error : Option String := none
deriving DecidableEq, Repr

/-- `Effect.send (OutMsg.ack i)` counter: how many RPC results correlated
with request id `i` appear in an effect list. -/
def countAck (effs : List Effect) (i : Option Int) : Nat :=
  effs.countP (fun e => decide (e = Effect.send (OutMsg.ack i)))

/-- How many `spawnLoop` effects appear in an effect list. -/
def countSpawn (effs : List Effect) : Nat :=
  effs.countP (fun e => decide (e = Effect.spawnLoop))

/-- Is this effect a websocket send? -/
def Effect.isSend : Effect → Bool
  | .send _ => true
  | _ => false

/-- Is this effect a `characteristicDidChange` notification send? -/
def Effect.isChangeNotif : Effect → Bool
  | .send (.characteristicDidChange _ _ _) => true
  | _ => false

/-- Number of websocket sends that occur strictly before the first RPC ack
for id `i` (0 means the ack precedes every other send). -/
def sendsBeforeAck (effs : List Effect) (i : Option Int) : Nat :=
  (effs.takeWhile (fun e => decide (e ≠ Effect.send (OutMsg.ack i)))).countP Effect.isSend

/-- One step of a push loop: the `while` condition failed (`exit`), one
iteration ran performing effects (`next`), or an exception escaped after
the listed effects (`fail`). -/
inductive LoopStep (σ : Type)
  | exit
  | next (s : σ) (effs : List Effect)
  | fail (effs : List Effect) (e : String)
deriving DecidableEq, Repr

end FakeHub

namespace FakeHub.Wedo

/-! ### The WeDo fake peripheral (`wedo.py`) -/

/-- The `UUID` constants of `wedo.py`. -/
def UUID.PORT_SERVICE : String := "00001523-1212-efde-1523-785feabcd123"

/-- `UUID.PORT_CHAR` -/
def UUID.PORT_CHAR : String := "00001527-1212-efde-1523-785feabcd123"

/-- `UUID.SENSOR_SERVICE` -/
def UUID.SENSOR_SERVICE : String := "00004f0e-1212-efde-1523-785feabcd123"

/-- `UUID.SENSOR_CHAR` -/
def UUID.SENSOR_CHAR : String := "00001560-1212-efde-1523-785feabcd123"

/-- `DEVICE_TYPES` dict of `wedo.py`; `none` models the `KeyError` a lookup
of an unknown kind raises. -/
def DEVICE_TYPES (device : String) : Option Nat :=
  if device = "motor" then some 0x01
  else if device = "tilt" then some 0x22
  else if device = "distance" then some 0x23
  else none

/-- State of a `WeDoDevice` (fields of `__init__` plus the notification
flags of `DevicePeripheral`). `wsAttached` models `self.ws` being non-None,
`pushTask` models `self.push_task` being non-None. -/
structure WeDoDevice where
  name : String := "Fake-Wedo"
  devices : List (Nat × String) := []
  motor_power : List (Nat × Nat) := []
  tilt_x : Nat := 0
  tilt_y : Nat := 200
  wsAttached : Bool := false
  tick : Nat := 0
  pushTask : Bool := false
  sensor_interval : Nat := 500
  distance_value : Int := 0
  notifications_ports : Bool := false
  notifications_sensor : Bool := false
deriving DecidableEq, Repr

/-- Python-dict lookup on an association list. -/
def dictGet (d : List (Nat × α)) (k : Nat) : Option α :=
  (d.find? (fun kv => kv.1 = k)).map (·.2)

/-- Python-dict assignment `d[k] = v`: overwrite in place if the key
exists (dict keys are unique, so at most one entry matches), otherwise
append. -/
def dictSet : List (Nat × Nat) → Nat → Nat → List (Nat × Nat)
  | [], k, v => [(k, v)]
  | kv :: rest, k, v => if kv.1 = k then (k, v) :: rest else kv :: dictSet rest k v

/-- `WeDoDevice.__init__`: motor ports start at power 100. -/
def WeDoDevice.init (device_name : String) (devices : List (Nat × String)) : WeDoDevice :=
  { name := device_name
    devices := devices
    motor_power := devices.filterMap (fun pd => if pd.2 = "motor" then some (pd.1, 100) else none) }

/-- `WeDoDevice.encode_attach`, before base64: `[port, 0x01, 0x00,
dev_type, ...fixed trailer]`; `none` is the `KeyError` for an unknown kind. -/
def encodeAttachBytes (port : Nat) (device : String) : Option (List Nat) :=
  (DEVICE_TYPES device).map (fun dev_type =>
    [port, 0x01, 0x00, dev_type, 0x00, 0x01, 0x01, 0x10, 0x00, 0x00, 0x00, 0x10])

/-- `WeDoDevice.encode_attach`: the base64 text of the attach frame. -/
def encode_attach (port : Nat) (device : String) : Option String :=
  (encodeAttachBytes port device).map b64

/-- `WeDoDevice.encode_sensor`, before base64. The distance branch writes
the literal byte `0x01` where the other branches write `port`. -/
def encodeSensorBytes (dev : WeDoDevice) (port : Nat) (device : String) : Option (List Nat) :=
  if device = "distance" then some [0x05, 0x01, (max 0 (min dev.distance_value 255)).toNat]
  else if device = "tilt" then some [0x05, port, dev.tilt_x, dev.tilt_y]
  else if device = "motor" then some [0x05, port, (dictGet dev.motor_power port).getD 100]
  else none

/-- `WeDoDevice.encode_sensor`: the base64 text; `none` models the
`raise Exception("Unknown device type")` branch. -/
def WeDoDevice.encode_sensor (dev : WeDoDevice) (port : Nat) (device : String) : Option String :=
  (encodeSensorBytes dev port device).map b64

/-- `WeDoDevice.find_port`: first port carrying the given sensor type. -/
def WeDoDevice.find_port (dev : WeDoDevice) (sensor_type : String) : Option Nat :=
  (dev.devices.find? (fun pd => pd.2 = sensor_type)).map (·.1)

/-- `WeDoDevice.set_distance`: clamp to 0..255 and store, but only when a
distance-capable port is configured (otherwise a logged no-op). -/
def WeDoDevice.set_distance (dev : WeDoDevice) (value : Int) : WeDoDevice :=
  match dev.find_port "distance" with
  | none => dev
  | some _ => { dev with distance_value := max 0 (min 255 value) }

/-- `WeDoDevice.set_tilt`: clamp both axes to 0..255 and store. -/
def WeDoDevice.set_tilt (dev : WeDoDevice) (x y : Int) : WeDoDevice :=
  { dev with tilt_x := (max 0 (min 255 x)).toNat, tilt_y := (max 0 (min 255 y)).toNat }

/-- `WeDoDevice.set_sensor_interval`: floor of 0.05 seconds (50 ms). -/
def WeDoDevice.set_sensor_interval (dev : WeDoDevice) (ms : Nat) : WeDoDevice :=
  { dev with sensor_interval := max 50 ms }

/-- The attach-frame sends of the ports activation block in
`WeDoDevice.start_notifications`: one `characteristicDidChange` per
configured port, in dict order; a `KeyError` from `encode_attach` aborts
the remaining sends. -/
def attachSends : List (Nat × String) → List Effect × Option String
  | [] => ([], none)
  | (port, d) :: rest =>
    match encode_attach port d with
    | none => ([], some "KeyError")
    | some m =>
      let (tl, e) := attachSends rest
      (Effect.send (OutMsg.characteristicDidChange
          (SvcId.str UUID.PORT_SERVICE) UUID.PORT_CHAR m) :: tl, e)

/-- The sensor block of `WeDoDevice.start_notifications`: guarded by the
`notifications_sensor` flag, it sets the flag and spawns the push task
when none exists, appending to the effects already performed. -/
def WeDoDevice.sensorStep (dev : WeDoDevice) (svc char : String)
    (acc : List Effect) : HRes WeDoDevice :=
  if svc = UUID.SENSOR_SERVICE ∧ char = UUID.SENSOR_CHAR ∧
      dev.notifications_sensor = false then
    if dev.pushTask = false then
      ⟨{ dev with notifications_sensor := true, pushTask := true },
        acc ++ [Effect.spawnLoop], none⟩
    else ⟨{ dev with notifications_sensor := true }, acc, none⟩
  else ⟨dev, acc, none⟩

/-- `WeDoDevice.start_notifications`: ack first, then the two
flag-guarded blocks run in sequence on the same object — the ports block
(when its pair matches and `notifications_ports` is clear) sets the flag
and emits one attach frame per configured port, then the sensor block
(`WeDoDevice.sensorStep`) runs unless an attach `KeyError` aborted the
handler. The two service UUIDs differ, so at most one block's pair can
match a given request. The debug f-string slices `svc[-4:]`/`char[-4:]`,
which raises `TypeError` after the ack unless both ids are strings (the
f-string argument is evaluated unconditionally). -/
def WeDoDevice.start_notifications (dev : WeDoDevice) (msg_id : Option Int)
    (p : Params) : HRes WeDoDevice :=
  let ackE := Effect.send (OutMsg.ack msg_id)
  match p.serviceId, p.characteristicId with
  | some (SvcId.str svc), some char =>
    if svc = UUID.PORT_SERVICE ∧ char = UUID.PORT_CHAR ∧ dev.notifications_ports = false then
      match attachSends dev.devices with
      | (effs1, some e) => ⟨{ dev with notifications_ports := true }, ackE :: effs1, some e⟩
      | (effs1, none) =>
        WeDoDevice.sensorStep { dev with notifications_ports := true } svc char (ackE :: effs1)
    else WeDoDevice.sensorStep dev svc char [ackE]
  | _, _ => ⟨dev, [ackE], some "TypeError"⟩

/-- `WeDoDevice.stop_notifications`: ack, then clear the matching flag and
cancel the push task when stopping the sensor channel. -/
def WeDoDevice.stop_notifications (dev : WeDoDevice) (msg_id : Option Int)
    (p : Params) : HRes WeDoDevice :=
  let ackE := Effect.send (OutMsg.ack msg_id)
  let sensorMatch := p.serviceId = some (SvcId.str UUID.SENSOR_SERVICE) ∧
      p.characteristicId = some UUID.SENSOR_CHAR
  let portMatch := p.serviceId = some (SvcId.str UUID.PORT_SERVICE) ∧
      p.characteristicId = some UUID.PORT_CHAR
  let (dev1, effs1) :=
    if sensorMatch then
      if dev.pushTask then
        ({ dev with notifications_sensor := false, pushTask := false }, [Effect.cancelLoop])
      else ({ dev with notifications_sensor := false }, [])
    else (dev, [])
  let dev2 := if portMatch then { dev1 with notifications_ports := false } else dev1
  ⟨dev2, ackE :: effs1, none⟩

/-- `WeDoDevice.write` (`wedo.py` lines 164-174): decode the base64
`message` (no try/except — a malformed string raises `binascii.Error`);
for payloads of ≥ 3 bytes decode the signed power from the last byte,
store the clamped magnitude under the first byte, invoke `on_motor_power`
(modelled by `cb`; its exception propagates before the ack), then ack.
The outer `max(0, ...)` of the source is the identity since `abs(power) ≥ 0`. -/
def WeDoDevice.write (cb : MotorCall → Except String Unit) (dev : WeDoDevice)
    (msg_id : Option Int) (p : Params) : HRes WeDoDevice :=
  let ackE := Effect.send (OutMsg.ack msg_id)
  match pythonB64Decode (p.message.getD "") with
  | none => ⟨dev, [], some "binascii.Error"⟩
  | some data =>
    if data.length ≥ 3 then
      let port := data.headD 0
      let pwr := data.getLastD 0
      let power : Int := if pwr ≥ 128 then (pwr : Int) - 256 else (pwr : Int)
      let direction : Int := if power ≥ 0 then 1 else -1
      let clamped : Nat := min 127 power.natAbs
      let dev' := { dev with motor_power := dictSet dev.motor_power port clamped }
      let c : MotorCall := ⟨port, clamped, direction⟩
      match cb c with
      | Except.error e => ⟨dev', [Effect.callback c], some e⟩
      | Except.ok _ => ⟨dev', [Effect.callback c, ackE], none⟩
    else ⟨dev, [ackE], none⟩

/-- `PeripheralInterface.discover` (`wedo.py`): ack, then the
`didDiscoverPeripheral` notification. -/
def WeDoDevice.discover (dev : WeDoDevice) (msg_id : Option Int) : HRes WeDoDevice :=
  ⟨dev, [Effect.send (OutMsg.ack msg_id),
         Effect.send (OutMsg.didDiscoverPeripheral dev.name "FAKE-WEDO-1234" (-40))], none⟩

/-- `WeDoDevice.handle_rpc`: `register_ws` then the method dispatch of
`wedo.py`'s `PeripheralInterface.handle_rpc` (no `read` branch there —
`read` falls through to the fallback ack, as does any unknown method). -/
def WeDoDevice.handle_rpc (cb : MotorCall → Except String Unit) (dev : WeDoDevice)
    (msg : InMsg) : HRes WeDoDevice :=
  let dev := { dev with wsAttached := true }
  if msg.method = "discover" then dev.discover msg.id
  else if msg.method = "connect" then ⟨dev, [Effect.send (OutMsg.ack msg.id)], none⟩
  else if msg.method = "startNotifications" then dev.start_notifications msg.id msg.params
  else if msg.method = "stopNotifications" then dev.stop_notifications msg.id msg.params
  else if msg.method = "write" then dev.write cb msg.id msg.params
  else ⟨dev, [Effect.send (OutMsg.ack msg.id)], none⟩

/-- Body of the per-port `for` loop inside `WeDoDevice._push_loop`: the
extra distance/tilt frames (each followed by a 0.05 s sleep), then the
`encode_sensor` frame; an unknown kind raises out of the loop. -/
def pushLoopPortSends (dev : WeDoDevice) : List (Nat × String) → List Effect × Option String
  | [] => ([], none)
  | (port, device) :: rest =>
    match dev.encode_sensor port device with
    | none => ([], some "Unknown device type")
    | some payload =>
      let extra : List Effect :=
        (if device = "distance" then
          [Effect.send (OutMsg.characteristicDidChange (SvcId.str UUID.PORT_SERVICE)
              UUID.PORT_CHAR (b64 [0x05, 0x01, 0])), Effect.sleep 50]
         else []) ++
        (if device = "tilt" then
          [Effect.send (OutMsg.characteristicDidChange (SvcId.str UUID.PORT_SERVICE)
              UUID.PORT_CHAR (b64 [0x05, port, 0, 0])), Effect.sleep 50]
         else [])
      let main := Effect.send (OutMsg.characteristicDidChange
          (SvcId.str UUID.PORT_SERVICE) UUID.PORT_CHAR payload)
      let (tl, e) := pushLoopPortSends dev rest
      (extra ++ main :: tl, e)

/-- One iteration of `WeDoDevice._push_loop`: while the sensor
subscription flag is set and a websocket is attached, send the per-port
frames and then sleep for `sensor_interval`. -/
def WeDoDevice.push_loop_iter (dev : WeDoDevice) : LoopStep WeDoDevice :=
  if dev.notifications_sensor ∧ dev.wsAttached then
    match pushLoopPortSends dev dev.devices with
    | (effs, some e) => .fail effs e
    | (effs, none) => .next dev (effs ++ [Effect.sleep dev.sensor_interval])
  else .exit

end FakeHub.Wedo

namespace FakeHub.Microbit

/-! ### The micro:bit fake peripheral

`scratchlink_fakehub/microbit.py` and the top-level draft `microbit.py`
share their constants, state, RPC handlers and codec; they differ in the
`_push_loop` body, so that part is modelled twice. -/

/-- `UUID.SVC_ID` of `microbit.py`. -/
def UUID.SVC_ID : Nat := 61445

/-- `UUID.CHAR_RX` (notify characteristic). -/
def UUID.CHAR_RX : String := "5261da01-fa7e-42ab-850b-7c80220097cc"

/-- `UUID.BTN_SERVICE` -/
def UUID.BTN_SERVICE : String := "E95D9882-251D-470A-A062-FA1922DFA9A8"

/-- `UUID.ACCEL_SERVICE` -/
def UUID.ACCEL_SERVICE : String := "E95D0753-251D-470A-A062-FA1922DFA9A8"

/-- `UUID.ACCEL_DATA_CHAR` -/
def UUID.ACCEL_DATA_CHAR : String := "E95DCA4B-251D-470A-A062-FA1922DFA9A8"

/-- State of a `MicrobitDevice`. `wsAttached` models `self.ws` being
non-None, `pushTask` models `self.push_task` being non-None. -/
structure MicrobitDevice where
  name : String := "Fake-Microbit"
  wsAttached : Bool := false
  notifications_rx : Bool := false
  pushTask : Bool := false
  hb_t : Nat := 0
deriving DecidableEq, Repr

/-- Python truthiness test `not svc` for a `serviceId` value: `None`, `0`
and `""` are falsy. -/
def svcFalsy : Option SvcId → Bool
  | none => true
  | some (SvcId.num 0) => true
  | some (SvcId.str "") => true
  | _ => false

/-- Python truthiness test `not char` for a `characteristicId` string. -/
def charFalsy : Option String → Bool
  | none => true
  | some "" => true
  | _ => false

/-- ASCII lower-casing of one character, as `str.lower()` does on the
ASCII UUID strings involved here. -/
def charLower (c : Char) : Char :=
  if 'A' ≤ c ∧ c ≤ 'Z' then Char.ofNat (c.toNat + 32) else c

/-- `str.lower()` on an ASCII string. -/
def pyLower (s : String) : String :=
  String.mk (s.toList.map charLower)

/-- Does `(serviceId, characteristicId)` match the RX notify
characteristic: `svc == UUID.SVC_ID and (char or "").lower() ==
UUID.CHAR_RX.lower()`. -/
def rxMatch (svc : Option SvcId) (char : Option String) : Bool :=
  svc = some (SvcId.num UUID.SVC_ID) ∧ pyLower (char.getD "") = pyLower UUID.CHAR_RX

/-- `MicrobitDevice._notify`: a `characteristicDidChange` send, dropped
when no websocket is attached. -/
def MicrobitDevice.notify (dev : MicrobitDevice) (service_id : SvcId)
    (char_id : String) (payload : List Nat) : List Effect :=
  if dev.wsAttached then
    [Effect.send (OutMsg.characteristicDidChange service_id char_id (b64 payload))]
  else []

/-- `MicrobitDevice.start_notifications`
(`scratchlink_fakehub/microbit.py` lines 75-94): ack first; a missing or
falsy id raises after the ack; re-entry while `notifications_rx` is
already set is ignored by the explicit guard, otherwise the flag is set
and the push loop spawned. -/
def MicrobitDevice.start_notifications (dev : MicrobitDevice) (msg_id : Option Int)
    (p : Params) : HRes MicrobitDevice :=
  let ackE := Effect.send (OutMsg.ack msg_id)
  if svcFalsy p.serviceId ∨ charFalsy p.characteristicId then
    ⟨dev, [ackE], some "Missing serviceId or characteristicId"⟩
  else if rxMatch p.serviceId p.characteristicId then
    if dev.notifications_rx then ⟨dev, [ackE], none⟩
    else
      let dev1 := { dev with notifications_rx := true }
      if dev1.pushTask then ⟨dev1, [ackE], none⟩
      else ⟨{ dev1 with pushTask := true }, [ackE, Effect.spawnLoop], none⟩
  else ⟨dev, [ackE], none⟩

/-- `MicrobitDevice.stop_notifications`: ack, clear the flag and cancel
the push task when the RX pair matches. -/
def MicrobitDevice.stop_notifications (dev : MicrobitDevice) (msg_id : Option Int)
    (p : Params) : HRes MicrobitDevice :=
  let ackE := Effect.send (OutMsg.ack msg_id)
  if rxMatch p.serviceId p.characteristicId then
    if dev.pushTask then
      ⟨{ dev with notifications_rx := false, pushTask := false }, [ackE, Effect.cancelLoop], none⟩
    else ⟨{ dev with notifications_rx := false }, [ackE], none⟩
  else ⟨dev, [ackE], none⟩

/-- `MicrobitDevice.write`: decode via `b64_to_bytes` (total), dispatch on
the leading opcode byte to a display callback, then ack. Unknown opcodes
and short `0x80` payloads only log. -/
def MicrobitDevice.write (dev : MicrobitDevice) (msg_id : Option Int)
    (p : Params) : HRes MicrobitDevice :=
  let payload := b64_to_bytes (p.message.getD "")
  let opcode := payload.head?
  let args := payload.tail
  let effs : List Effect :=
    if opcode = some 0x81 then [Effect.displayText args]
    else if opcode = some 0x82 then
      let rows := args.take 5 ++ List.replicate (5 - args.length) 0
      if rows.all (fun b => b = 0) then [Effect.clearDisplay]
      else [Effect.displayMatrix rows]
    else if opcode = some 0x80 then
      if args.length ≥ 3 then
        [Effect.setPixel (args.getD 0 0) (args.getD 1 0) (args.getD 2 0 ≠ 0)]
      else []
    else []
  ⟨dev, effs ++ [Effect.send (OutMsg.ack msg_id)], none⟩

/-- `MicrobitDevice.read` (`scratchlink_fakehub/microbit.py`): delegate to
`start_notifications` when `params.get("startNotifications")` is truthy,
otherwise just ack. -/
def MicrobitDevice.read (dev : MicrobitDevice) (msg_id : Option Int)
    (p : Params) : HRes MicrobitDevice :=
  if p.readStartsNotifying then dev.start_notifications msg_id p
  else ⟨dev, [Effect.send (OutMsg.ack msg_id)], none⟩

/-- `PeripheralInterface.discover`
(`scratchlink_fakehub/peripheral_interface.py`): ack, then the
`didDiscoverPeripheral` notification (same constants as the WeDo draft). -/
def MicrobitDevice.discover (dev : MicrobitDevice) (msg_id : Option Int) : HRes MicrobitDevice :=
  ⟨dev, [Effect.send (OutMsg.ack msg_id),
         Effect.send (OutMsg.didDiscoverPeripheral dev.name "FAKE-WEDO-1234" (-40))], none⟩

/-- `MicrobitDevice.handle_rpc`: `register_ws`, then the method dispatch
of `scratchlink_fakehub/peripheral_interface.py` (which does have a
`read` branch), with a fallback ack for unknown methods. -/
def MicrobitDevice.handle_rpc (dev : MicrobitDevice) (msg : InMsg) : HRes MicrobitDevice :=
  let dev := { dev with wsAttached := true }
  if msg.method = "discover" then dev.discover msg.id
  else if msg.method = "connect" then ⟨dev, [Effect.send (OutMsg.ack msg.id)], none⟩
  else if msg.method = "startNotifications" then dev.start_notifications msg.id msg.params
  else if msg.method = "stopNotifications" then dev.stop_notifications msg.id msg.params
  else if msg.method = "write" then dev.write msg.id msg.params
  else if msg.method = "read" then dev.read msg.id msg.params
  else ⟨dev, [Effect.send (OutMsg.ack msg.id)], none⟩

/-- `MicrobitDevice._heartbeat_payload`: 8 bytes `(t + i*11) & 0xFF`. -/
def heartbeat_payload (t : Nat) : List Nat :=
  (List.range 8).map (fun i => (t + i * 11) % 256)

/-- Signed 16-bit little-endian encoding as computed by
`(v & 0xFFFF).to_bytes(2, "little")` (Python `&` on a negative int is the
nonnegative residue mod 2^16). -/
def sint16le (v : Int) : List Nat :=
  [(v % 65536).toNat % 256, (v % 65536).toNat / 256]

/-- `MicrobitDevice.accelerometer`: each component must lie in the signed
16-bit range or `ValueError` is raised before anything is sent; otherwise
one notification with the three little-endian values is emitted. -/
def MicrobitDevice.accelerometer (dev : MicrobitDevice) (x y z : Int) : HRes MicrobitDevice :=
  if ¬(-32768 ≤ x ∧ x ≤ 32767) then ⟨dev, [], some "ValueError"⟩
  else if ¬(-32768 ≤ y ∧ y ≤ 32767) then ⟨dev, [], some "ValueError"⟩
  else if ¬(-32768 ≤ z ∧ z ≤ 32767) then ⟨dev, [], some "ValueError"⟩
  else
    ⟨dev, dev.notify (SvcId.str UUID.ACCEL_SERVICE) UUID.ACCEL_DATA_CHAR
        (sint16le x ++ sint16le y ++ sint16le z), none⟩

/-- Entry of `MicrobitDevice._push_loop` in
`scratchlink_fakehub/microbit.py`: with a non-positive heartbeat rate the
task returns before sending anything; otherwise it proceeds to the
`while` iterations. -/
def pushLoopEntry (hz : Nat) : Option Nat :=
  if hz = 0 then none else some (1000 / hz)

/-- One iteration of the `while` loop of
`scratchlink_fakehub/microbit.py`'s `_push_loop`: sleep one period, bump
the heartbeat counter mod 256, then notify the RX characteristic. -/
def MicrobitDevice.push_loop_iter (period : Nat) (dev : MicrobitDevice) :
    LoopStep MicrobitDevice :=
  if dev.notifications_rx ∧ dev.wsAttached then
    let dev' := { dev with hb_t := (dev.hb_t + 1) % 256 }
    .next dev' (Effect.sleep period ::
      dev'.notify (SvcId.num UUID.SVC_ID) UUID.CHAR_RX (heartbeat_payload dev'.hb_t))
  else .exit

/-- Entry of `MicrobitDevice._push_loop` in the top-level `microbit.py`
draft (lines 137-149): after the `HEARTBEAT_HZ` check it executes a bare
`raise Exception()` — everything below it, including the whole `while`
body, is unreachable, so the task dies before its first sleep or send. -/
def flatPushLoopEntry (hz : Nat) : LoopStep MicrobitDevice :=
  if hz = 0 then .exit else .fail [] "Exception"

end FakeHub.Microbit

namespace FakeHub

/-! ### The session hub (`scratchlink_fakehub/hub.py`)

`_handle_session` iterates inbound messages; for each one it runs every
registered peripheral's `handle_rpc` inside one `try`, so an exception
from one peripheral skips the remaining peripherals for that message and
is logged without closing the session. The single-device draft `hub.py`
is the one-element special case. -/

/-- A peripheral registered on the hub. -/
inductive Periph
  | wedo (d : Wedo.WeDoDevice)
  | microbit (d : Microbit.MicrobitDevice)
deriving DecidableEq, Repr

/-- Dispatch one message to one peripheral. -/
def Periph.handle_rpc (cb : MotorCall → Except String Unit) :
    Periph → InMsg → HRes Periph
  | .wedo d, msg =>
    let r := d.handle_rpc cb msg
    ⟨.wedo r.state, r.effects, r.error⟩
  | .microbit d, msg =>
    let r := d.handle_rpc msg
    ⟨.microbit r.state, r.effects, r.error⟩

/-- Fan one inbound message out to every registered peripheral
(`for device in self.devices: await device.handle_rpc(...)`). A raised
exception is caught by the surrounding `except` after aborting the rest
of the fan-out; the session stays alive either way. -/
def hubStep (cb : MotorCall → Except String Unit) :
    List Periph → InMsg → List Periph × List Effect
  | [], _ => ([], [])
  | d :: rest, msg =>
    let r := d.handle_rpc cb msg
    match r.error with
    | some _ => (r.state :: rest, r.effects)
    | none =>
      let (rest', effs) := hubStep cb rest msg
      (r.state :: rest', r.effects ++ effs)

/-- Process a whole inbound message sequence through the session loop. -/
def hubRun (cb : MotorCall → Except String Unit) (devs : List Periph) :
    List InMsg → List Periph × List Effect
  | [] => (devs, [])
  | msg :: msgs =>
    let (devs1, effs1) := hubStep cb devs msg
    let (devs2, effs2) := hubRun cb devs1 msgs
    (devs2, effs1 ++ effs2)

/-- The default `on_motor_power` hook only logs and never raises. -/
def defaultMotorHook : MotorCall → Except String Unit := fun _ => Except.ok ()

/-- The ports subscription pair of the WeDo device. -/
def Wedo.portsPair : Params :=
  { serviceId := some (.str Wedo.UUID.PORT_SERVICE)
    characteristicId := some Wedo.UUID.PORT_CHAR }

/-- The sensor subscription pair of the WeDo device. -/
def Wedo.sensorPair : Params :=
  { serviceId := some (.str Wedo.UUID.SENSOR_SERVICE)
    characteristicId := some Wedo.UUID.SENSOR_CHAR }

/-- The RX subscription pair of the micro:bit device. -/
def Microbit.rxPair : Params :=
  { serviceId := some (.num Microbit.UUID.SVC_ID)
    characteristicId := some Microbit.UUID.CHAR_RX }

/-- Every configured device kind is present in the `DEVICE_TYPES` table. -/
def Wedo.validKinds (l : List (Nat × String)) : Bool :=
  l.all (fun pd => (Wedo.DEVICE_TYPES pd.2).isSome)

end FakeHub

namespace FakeHub

/-! ### Helper lemmas -/

theorem Wedo.attachSends_error_none (l : List (Nat × String)) (h : Wedo.validKinds l = true) :
    (Wedo.attachSends l).2 = none := by
  induction l with
  | nil => rfl
  | cons pd rest ih =>
    rw [Wedo.validKinds, List.all_cons, Bool.and_eq_true] at h
    obtain ⟨c, hc⟩ := Option.isSome_iff_exists.mp h.1
    have hrest : Wedo.validKinds rest = true := h.2
    simp only [Wedo.attachSends, Wedo.encode_attach, Wedo.encodeAttachBytes, hc, Option.map_some]
    exact ih hrest

theorem Wedo.attachSends_all_notifs (l : List (Nat × String)) :
    ∀ e ∈ (Wedo.attachSends l).1, e.isChangeNotif = true := by
  induction l with
  | nil => intro e he; cases he
  | cons pd rest ih =>
    intro e he
    simp only [Wedo.attachSends] at he
    cases henc : Wedo.encode_attach pd.1 pd.2 with
    | none => rw [henc] at he; cases he
    | some m =>
      rw [henc] at he
      rcases List.mem_cons.mp he with h1 | h2
      · subst h1; rfl
      · exact ih e h2

theorem Wedo.attachSends_length (l : List (Nat × String)) (h : Wedo.validKinds l = true) :
    (Wedo.attachSends l).1.length = l.length := by
  induction l with
  | nil => rfl
  | cons pd rest ih =>
    rw [Wedo.validKinds, List.all_cons, Bool.and_eq_true] at h
    obtain ⟨c, hc⟩ := Option.isSome_iff_exists.mp h.1
    have hrest : Wedo.validKinds rest = true := h.2
    simp only [Wedo.attachSends, Wedo.encode_attach, Wedo.encodeAttachBytes, hc, Option.map_some,
      List.length_cons]
    exact congrArg (· + 1) (ih hrest)

theorem countSpawn_of_notifs (effs : List Effect)
    (h : ∀ e ∈ effs, e.isChangeNotif = true) : countSpawn effs = 0 := by
  rw [countSpawn, List.countP_eq_zero]
  intro e he
  have := h e he
  cases e with
  | send m => simp
  | _ => simp [Effect.isChangeNotif] at this

theorem countAck_of_notifs (effs : List Effect) (i : Option Int)
    (h : ∀ e ∈ effs, e.isChangeNotif = true) : countAck effs i = 0 := by
  rw [countAck, List.countP_eq_zero]
  intro e he
  have := h e he
  cases e with
  | send m =>
    cases m with
    | ack _ => simp [Effect.isChangeNotif] at this
    | didDiscoverPeripheral _ _ _ => simp [Effect.isChangeNotif] at this
    | characteristicDidChange _ _ _ => simp
  | _ => simp [Effect.isChangeNotif] at this

theorem Wedo.sensor_svc_ne_port : Wedo.UUID.SENSOR_SERVICE ≠ Wedo.UUID.PORT_SERVICE := by
  decide

theorem Wedo.port_svc_ne_sensor : Wedo.UUID.PORT_SERVICE ≠ Wedo.UUID.SENSOR_SERVICE := by
  decide

theorem Microbit.rxPair_not_falsy :
    (Microbit.svcFalsy Microbit.rxPair.serviceId ∨
      Microbit.charFalsy Microbit.rxPair.characteristicId) = False := by
  decide

theorem Microbit.rxPair_matches :
    Microbit.rxMatch Microbit.rxPair.serviceId Microbit.rxPair.characteristicId = true := by
  decide

/-- Claim C1: for every valid `(serviceId, characteristicId)` subscription
pair, issuing `startNotifications` twice in a row performs the activation
side effects at most once and never double-spawns the push loop, each
second call adding only its RPC ack, because both devices guard
activation behind an explicit subscription-flag check: on the WeDo ports
pair the first call emits exactly one attach notification per configured
port and the second call emits only its ack (no loop exists on this
pair, so zero spawns total); on the WeDo sensor pair and the micro:bit
RX pair exactly one loop is spawned across both calls and the second
call emits only its ack. -/
theorem C1_start_twice_single_activation
    (d : Wedo.WeDoDevice) (m : Microbit.MicrobitDevice) (id1 id2 : Option Int)
    (hp : d.notifications_ports = false) (hs : d.notifications_sensor = false)
    (ht : d.pushTask = false) (hk : Wedo.validKinds d.devices = true)
    (hm : m.notifications_rx = false) (hmt : m.pushTask = false) :
    (((d.start_notifications id1 Wedo.portsPair).state.start_notifications
        id2 Wedo.portsPair).effects = [Effect.send (OutMsg.ack id2)] ∧
      countSpawn ((d.start_notifications id1 Wedo.portsPair).effects ++
        ((d.start_notifications id1 Wedo.portsPair).state.start_notifications
          id2 Wedo.portsPair).effects) = 0 ∧
      (d.start_notifications id1 Wedo.portsPair).effects.countP Effect.isChangeNotif
        = d.devices.length) ∧
    (((d.start_notifications id1 Wedo.sensorPair).state.start_notifications
        id2 Wedo.sensorPair).effects = [Effect.send (OutMsg.ack id2)] ∧
      countSpawn ((d.start_notifications id1 Wedo.sensorPair).effects ++
        ((d.start_notifications id1 Wedo.sensorPair).state.start_notifications
          id2 Wedo.sensorPair).effects) = 1) ∧
    (((m.start_notifications id1 Microbit.rxPair).state.start_notifications
        id2 Microbit.rxPair).effects = [Effect.send (OutMsg.ack id2)] ∧
      countSpawn ((m.start_notifications id1 Microbit.rxPair).effects ++
        ((m.start_notifications id1 Microbit.rxPair).state.start_notifications
          id2 Microbit.rxPair).effects) = 1) := by
  rcases hAS : Wedo.attachSends d.devices with ⟨attEffs, attErr⟩
  have herr := Wedo.attachSends_error_none d.devices hk
  rw [hAS] at herr
  subst herr
  have hnot := Wedo.attachSends_all_notifs d.devices
  rw [hAS] at hnot
  have hport : d.start_notifications id1 Wedo.portsPair =
      ⟨{ d with notifications_ports := true }, Effect.send (OutMsg.ack id1) :: attEffs, none⟩ := by
    simp [Wedo.WeDoDevice.start_notifications, Wedo.WeDoDevice.sensorStep, Wedo.portsPair,
      hp, hAS, Wedo.port_svc_ne_sensor]
  have hport2 : Wedo.WeDoDevice.start_notifications
      { d with notifications_ports := true } id2 Wedo.portsPair =
      ⟨{ d with notifications_ports := true }, [Effect.send (OutMsg.ack id2)], none⟩ := by
    simp [Wedo.WeDoDevice.start_notifications, Wedo.WeDoDevice.sensorStep, Wedo.portsPair,
      hs, ht, Wedo.port_svc_ne_sensor]
  have hsens : d.start_notifications id1 Wedo.sensorPair =
      ⟨{ d with notifications_sensor := true, pushTask := true },
        [Effect.send (OutMsg.ack id1), Effect.spawnLoop], none⟩ := by
    simp [Wedo.WeDoDevice.start_notifications, Wedo.WeDoDevice.sensorStep, Wedo.sensorPair,
      hp, hs, ht, Wedo.sensor_svc_ne_port]
  have hsens2 : Wedo.WeDoDevice.start_notifications
      { d with notifications_sensor := true, pushTask := true } id2 Wedo.sensorPair =
      ⟨{ d with notifications_sensor := true, pushTask := true },
        [Effect.send (OutMsg.ack id2)], none⟩ := by
    simp [Wedo.WeDoDevice.start_notifications, Wedo.WeDoDevice.sensorStep, Wedo.sensorPair,
      Wedo.sensor_svc_ne_port]
  have hrx : m.start_notifications id1 Microbit.rxPair =
      ⟨{ m with notifications_rx := true, pushTask := true },
        [Effect.send (OutMsg.ack id1), Effect.spawnLoop], none⟩ := by
    simp [Microbit.MicrobitDevice.start_notifications, hm, hmt,
      Microbit.rxPair_matches, Microbit.rxPair_not_falsy]
  have hrx2 : Microbit.MicrobitDevice.start_notifications
      { m with notifications_rx := true, pushTask := true } id2 Microbit.rxPair =
      ⟨{ m with notifications_rx := true, pushTask := true },
        [Effect.send (OutMsg.ack id2)], none⟩ := by
    simp [Microbit.MicrobitDevice.start_notifications,
      Microbit.rxPair_matches, Microbit.rxPair_not_falsy]
  refine ⟨⟨?_, ?_, ?_⟩, ⟨?_, ?_⟩, ⟨?_, ?_⟩⟩
  · rw [hport]; exact congrArg HRes.effects hport2
  · rw [hport, hport2]
    simp only [countSpawn, List.countP_append, List.countP_cons]
    have h0 := countSpawn_of_notifs attEffs hnot
    rw [countSpawn] at h0
    simp [h0]
  · rw [hport]
    simp only [List.countP_cons]
    rw [List.countP_eq_length.mpr hnot]
    have hlen := Wedo.attachSends_length d.devices hk
    rw [hAS] at hlen
    simp [Effect.isChangeNotif, hlen]
  · rw [hsens]; exact congrArg HRes.effects hsens2
  · rw [hsens, hsens2]; simp [countSpawn]
  · rw [hrx]; exact congrArg HRes.effects hrx2
  · rw [hrx, hrx2]; simp [countSpawn]

theorem Wedo.dictGet_dictSet (d : List (Nat × Nat)) (k v : Nat) :
    Wedo.dictGet (Wedo.dictSet d k v) k = some v := by
  induction d with
  | nil => simp [Wedo.dictGet, Wedo.dictSet, List.find?]
  | cons kv rest ih =>
    by_cases h : kv.1 = k
    · simp [Wedo.dictSet, Wedo.dictGet, List.find?, h]
    · simp only [Wedo.dictSet, if_neg h]
      simp only [Wedo.dictGet, List.find?] at ih ⊢
      rw [decide_eq_false h]
      exact ih

/-- Characterization of a successful motor write (`WeDoDevice.write`,
payload of at least 3 bytes): the quantities are stated the way the spec
phrases them (case split on the last byte `b`), the conclusion is the
code's behaviour. -/
theorem Wedo.write_motor_spec
    (dev : Wedo.WeDoDevice) (cb : MotorCall → Except String Unit) (msg_id : Option Int)
    (p : Params) (data : List Nat) (b q : Nat) (power direction : Int) (clamped : Nat)
    (hdec : pythonB64Decode (p.message.getD "") = some data)
    (hlen : 3 ≤ data.length) (hb : b = data.getLastD 0) (hq : q = data.headD 0)
    (hbyte : b < 256)
    (hpow : power = if b < 128 then (b : Int) else (b : Int) - 256)
    (hdir : direction = if b < 128 then 1 else -1)
    (hcl : clamped = min power.natAbs 127)
    (hcb : cb ⟨q, clamped, direction⟩ = Except.ok ()) :
    dev.write cb msg_id p =
      ⟨{ dev with motor_power := Wedo.dictSet dev.motor_power q clamped },
        [Effect.callback ⟨q, clamped, direction⟩, Effect.send (OutMsg.ack msg_id)], none⟩ := by
  subst hb hq
  simp only [Wedo.WeDoDevice.write, hdec]
  rw [if_pos hlen]
  by_cases hlt : data.getLastD 0 < 128
  · have h128 : ¬(data.getLastD 0 ≥ 128) := by omega
    rw [if_neg h128] at *
    rw [if_pos hlt] at hpow hdir
    have hnn : ((data.getLastD 0 : Int) ≥ 0) := Int.ofNat_nonneg _
    rw [if_pos hnn]
    subst hpow hdir
    rw [Nat.min_comm] at hcl
    subst hcl
    rw [hcb]
  · have h128 : (data.getLastD 0 ≥ 128) := by omega
    rw [if_pos h128]
    rw [if_neg hlt] at hpow hdir
    have hneg : ¬((data.getLastD 0 : Int) - 256 ≥ 0) := by
      omega
    rw [if_neg hneg]
    subst hpow hdir
    rw [Nat.min_comm] at hcl
    subst hcl
    rw [hcb]

/-- Claim C2: a motor-control write whose payload has at least 3 bytes, with
first byte `q` and last byte `b`, decodes the signed power as `+b`
(direction `+1`) when `b < 128` and as `b - 256` (direction `-1`)
otherwise, stores `min(|power|, 127)` under `motorPower[q]`, and invokes
`on_motor_power` exactly once with `(q, clampedPower, direction)` before
acking. -/
theorem C2_motor_write_decodes_signed_power
    (dev : Wedo.WeDoDevice) (cb : MotorCall → Except String Unit) (msg_id : Option Int)
    (p : Params) (data : List Nat) (b q : Nat) (power direction : Int) (clamped : Nat)
    (hdec : pythonB64Decode (p.message.getD "") = some data)
    (hlen : 3 ≤ data.length) (hb : b = data.getLastD 0) (hq : q = data.headD 0)
    (hbyte : b < 256)
    (hpow : power = if b < 128 then (b : Int) else (b : Int) - 256)
    (hdir : direction = if b < 128 then 1 else -1)
    (hcl : clamped = min power.natAbs 127)
    (hcb : cb ⟨q, clamped, direction⟩ = Except.ok ()) :
    dev.write cb msg_id p =
      ⟨{ dev with motor_power := Wedo.dictSet dev.motor_power q clamped },
        [Effect.callback ⟨q, clamped, direction⟩, Effect.send (OutMsg.ack msg_id)], none⟩ ∧
    Wedo.dictGet (dev.write cb msg_id p).state.motor_power q = some clamped := by
  have h := Wedo.write_motor_spec dev cb msg_id p data b q power direction clamped
    hdec hlen hb hq hbyte hpow hdir hcl hcb
  refine ⟨h, ?_⟩
  rw [h]
  exact Wedo.dictGet_dictSet dev.motor_power q clamped

/-- Witness for C2: the spec scenario `write [1, 0x00, 0x00, 0xFF]` →
`onMotorPower(1, 1, -1)` invoked once and the ack sent. -/
theorem C2_motor_write_decodes_signed_power_witness :
    pythonB64Decode "AQAA/w==" = some [1, 0, 0, 255] ∧
    (Wedo.WeDoDevice.init "Fake-Wedo" [(1, "motor")]).write defaultMotorHook (some 123)
        { message := some "AQAA/w==" } =
      ⟨{ Wedo.WeDoDevice.init "Fake-Wedo" [(1, "motor")] with
          motor_power := Wedo.dictSet (Wedo.WeDoDevice.init "Fake-Wedo" [(1, "motor")]).motor_power 1 1 },
        [Effect.callback ⟨1, 1, -1⟩, Effect.send (OutMsg.ack (some 123))], none⟩ :=
  ⟨by decide,
    (C2_motor_write_decodes_signed_power
      (Wedo.WeDoDevice.init "Fake-Wedo" [(1, "motor")]) defaultMotorHook (some 123)
      { message := some "AQAA/w==" } [1, 0, 0, 255] 255 1 (-1) (-1) 1
      (by decide) (by decide) (by decide) (by decide) (by decide)
      (by decide) (by decide) (by decide) rfl).1⟩

/-- Claim C10: a motor-control write validates nothing about the port byte:
for a payload `[q, _, _, b]` of length ≥ 3 whose first byte `q` is not a
configured port, the write still creates/updates `motor_power[q]` with
the clamped power, invokes `on_motor_power` exactly once with
`(q, clampedPower, direction)`, and acks — it is not a no-op. -/
theorem C10_write_accepts_unconfigured_port
    (dev : Wedo.WeDoDevice) (cb : MotorCall → Except String Unit) (msg_id : Option Int)
    (p : Params) (data : List Nat) (b q : Nat) (power direction : Int) (clamped : Nat)
    (hdec : pythonB64Decode (p.message.getD "") = some data)
    (hlen : 3 ≤ data.length) (hb : b = data.getLastD 0) (hq : q = data.headD 0)
    (hbyte : b < 256)
    (hconf : dev.devices.find? (fun pd => pd.1 = q) = none)
    (hpow : power = if b < 128 then (b : Int) else (b : Int) - 256)
    (hdir : direction = if b < 128 then 1 else -1)
    (hcl : clamped = min power.natAbs 127)
    (hcb : cb ⟨q, clamped, direction⟩ = Except.ok ()) :
    Wedo.dictGet (dev.write cb msg_id p).state.motor_power q = some clamped ∧
    (dev.write cb msg_id p).effects =
      [Effect.callback ⟨q, clamped, direction⟩, Effect.send (OutMsg.ack msg_id)] ∧
    (dev.write cb msg_id p).error = none := by
  have h := Wedo.write_motor_spec dev cb msg_id p data b q power direction clamped
    hdec hlen hb hq hbyte hpow hdir hcl hcb
  rw [h]
  exact ⟨Wedo.dictGet_dictSet dev.motor_power q clamped, rfl, rfl⟩

/-- Witness for C10: writing `[9, 0x00, 0x00, 0x7F]` to a WeDo device
with no configured ports stores `motor_power[9] = 127` and fires the
callback with `(9, 127, +1)`. -/
theorem C10_write_accepts_unconfigured_port_witness :
    pythonB64Decode "CQAAfw==" = some [9, 0, 0, 127] ∧
    (Wedo.WeDoDevice.init "Fake-Wedo" []).devices.find? (fun pd => pd.1 = 9) = none ∧
    Wedo.dictGet ((Wedo.WeDoDevice.init "Fake-Wedo" []).write defaultMotorHook (some 5)
        { message := some "CQAAfw==" }).state.motor_power 9 = some 127 :=
  ⟨by decide, by decide,
    (C10_write_accepts_unconfigured_port
      (Wedo.WeDoDevice.init "Fake-Wedo" []) defaultMotorHook (some 5)
      { message := some "CQAAfw==" } [9, 0, 0, 127] 127 9 127 1 127
      (by decide) (by decide) (by decide) (by decide) (by decide) (by decide)
      (by decide) (by decide) (by decide) rfl).1⟩

/-- An effect list of the shape `pre ++ ack :: post` where `pre` contains
no sends and `post` contains no ack for the same id carries exactly one
correlated ack, preceded by no other send. -/
theorem one_ack_shape (i : Option Int) (pre post : List Effect)
    (hpre : ∀ e ∈ pre, e.isSend = false)
    (hpost : ∀ e ∈ post, ¬(e = Effect.send (OutMsg.ack i))) :
    countAck (pre ++ Effect.send (OutMsg.ack i) :: post) i = 1 ∧
    sendsBeforeAck (pre ++ Effect.send (OutMsg.ack i) :: post) i = 0 := by
  have hpreNe : ∀ e ∈ pre, ¬(e = Effect.send (OutMsg.ack i)) := by
    intro e he heq
    subst heq
    simpa [Effect.isSend] using hpre _ he
  constructor
  · have h0 : pre.countP (fun e => decide (e = Effect.send (OutMsg.ack i))) = 0 :=
      List.countP_eq_zero.mpr (by intro a ha; simpa using hpreNe a ha)
    have h1 : post.countP (fun e => decide (e = Effect.send (OutMsg.ack i))) = 0 :=
      List.countP_eq_zero.mpr (by intro a ha; simpa using hpost a ha)
    simp [countAck, List.countP_append, List.countP_cons, h0, h1]
  · induction pre with
    | nil => simp [sendsBeforeAck, List.takeWhile_cons]
    | cons x xs ih =>
      have hx : x.isSend = false := hpre x (List.mem_cons_self x xs)
      have hxs : ∀ e ∈ xs, e.isSend = false := fun e he => hpre e (List.mem_cons_of_mem x he)
      have hxne : ¬(x = Effect.send (OutMsg.ack i)) := hpreNe x (List.mem_cons_self x xs)
      have htl := ih hxs (fun e he => by
        intro heq
        subst heq
        simpa [Effect.isSend] using hxs _ he)
      simp only [sendsBeforeAck, List.cons_append, List.takeWhile_cons] at htl ⊢
      rw [decide_eq_true (show x ≠ Effect.send (OutMsg.ack i) from hxne)]
      simp only [if_true, List.countP_cons, hx]
      simpa using htl

/-- `WeDoDevice.sensorStep` never raises and only ever appends the
non-send `spawnLoop` effect to its accumulator. -/
theorem Wedo.sensorStep_shape (dev : Wedo.WeDoDevice) (svc char : String)
    (acc : List Effect) :
    ∃ st, Wedo.WeDoDevice.sensorStep dev svc char acc = ⟨st, acc ++ [Effect.spawnLoop], none⟩ ∨
      Wedo.WeDoDevice.sensorStep dev svc char acc = ⟨st, acc, none⟩ := by
  unfold Wedo.WeDoDevice.sensorStep
  split_ifs
  · exact ⟨_, Or.inl rfl⟩
  · exact ⟨_, Or.inr rfl⟩
  · exact ⟨_, Or.inr rfl⟩

/-- `WeDoDevice.start_notifications` acks exactly once, before any other
send, whenever it completes without raising. -/
theorem Wedo.wedo_start_one_ack (d : Wedo.WeDoDevice) (mid : Option Int) (p : Params)
    (hok : (d.start_notifications mid p).error = none) :
    countAck (d.start_notifications mid p).effects mid = 1 ∧
    sendsBeforeAck (d.start_notifications mid p).effects mid = 0 := by
  have hstep : ∀ (dev : Wedo.WeDoDevice) (svc char : String) (tail : List Effect),
      (∀ e ∈ tail, ¬(e = Effect.send (OutMsg.ack mid))) →
      countAck (Wedo.WeDoDevice.sensorStep dev svc char
          (Effect.send (OutMsg.ack mid) :: tail)).effects mid = 1 ∧
      sendsBeforeAck (Wedo.WeDoDevice.sensorStep dev svc char
          (Effect.send (OutMsg.ack mid) :: tail)).effects mid = 0 := by
    intro dev svc char tail htail
    obtain ⟨st, h | h⟩ := Wedo.sensorStep_shape dev svc char (Effect.send (OutMsg.ack mid) :: tail)
    · rw [h]
      have := one_ack_shape mid [] (tail ++ [Effect.spawnLoop]) (by simp)
        (by
          intro e he
          rcases List.mem_append.mp he with h1 | h1
          · exact htail e h1
          · simp only [List.mem_singleton] at h1
            subst h1
            simp)
      simpa using this
    · rw [h]
      simpa using one_ack_shape mid [] tail (by simp) htail
  rcases hs : p.serviceId with _ | sv
  · simp only [Wedo.WeDoDevice.start_notifications, hs] at hok
    exact absurd hok (by simp)
  · rcases sv with str | n
    · rcases hc : p.characteristicId with _ | c
      · simp only [Wedo.WeDoDevice.start_notifications, hs, hc] at hok
        exact absurd hok (by simp)
      · rcases hAS : Wedo.attachSends d.devices with ⟨ae, er⟩
        have haeNotif := Wedo.attachSends_all_notifs d.devices
        rw [hAS] at haeNotif
        have haeNe : ∀ e ∈ ae, ¬(e = Effect.send (OutMsg.ack mid)) := by
          intro e he heq
          subst heq
          simpa [Effect.isChangeNotif] using haeNotif _ he
        simp only [Wedo.WeDoDevice.start_notifications, hs, hc, hAS] at hok ⊢
        split_ifs at hok ⊢ with h1
        · cases er with
          | some e => exact absurd hok (by simp)
          | none => exact hstep _ _ _ ae haeNe
        · exact hstep _ _ _ [] (by simp)
    · simp only [Wedo.WeDoDevice.start_notifications, hs] at hok
      exact absurd hok (by simp)

/-- `WeDoDevice.handle_rpc` acks exactly once, before any notification it
triggers, whenever the handler completes without raising. -/
theorem Wedo.wedo_handle_one_ack (d : Wedo.WeDoDevice) (cb : MotorCall → Except String Unit)
    (msg : InMsg) (hok : (d.handle_rpc cb msg).error = none) :
    countAck (d.handle_rpc cb msg).effects msg.id = 1 ∧
    sendsBeforeAck (d.handle_rpc cb msg).effects msg.id = 0 := by
  simp only [Wedo.WeDoDevice.handle_rpc] at hok ⊢
  split_ifs at hok ⊢ with h1 h2 h3 h4 h5
  · exact one_ack_shape msg.id [] [Effect.send (OutMsg.didDiscoverPeripheral _ _ _)]
      (by simp) (by simp)
  · exact one_ack_shape msg.id [] [] (by simp) (by simp)
  · exact Wedo.wedo_start_one_ack _ msg.id msg.params hok
  · simp only [Wedo.WeDoDevice.stop_notifications]
    split_ifs
    all_goals
      first
      | exact one_ack_shape msg.id [] [Effect.cancelLoop] (by simp) (by simp)
      | exact one_ack_shape msg.id [] [] (by simp) (by simp)
  · simp only [Wedo.WeDoDevice.write] at hok ⊢
    cases hdec : pythonB64Decode (msg.params.message.getD "") with
    | none => simp [hdec] at hok
    | some data =>
      rw [hdec] at hok
      dsimp only at hok ⊢
      split_ifs at hok ⊢
      all_goals
        first
        | exact one_ack_shape msg.id [] [] (by simp) (by simp)
        | (split at hok
           · simp at hok
           · exact one_ack_shape msg.id [Effect.callback _] []
               (by simp [Effect.isSend]) (by simp))
  · exact one_ack_shape msg.id [] [] (by simp) (by simp)

/-- `MicrobitDevice.start_notifications` acks exactly once, before any
other send, whenever it completes without raising. -/
theorem Microbit.microbit_start_one_ack (d : Microbit.MicrobitDevice) (mid : Option Int) (p : Params)
    (hok : (d.start_notifications mid p).error = none) :
    countAck (d.start_notifications mid p).effects mid = 1 ∧
    sendsBeforeAck (d.start_notifications mid p).effects mid = 0 := by
  simp only [Microbit.MicrobitDevice.start_notifications] at hok ⊢
  split_ifs at hok ⊢
  all_goals
    first
    | exact one_ack_shape mid [] [] (by simp) (by simp)
    | exact one_ack_shape mid [] [Effect.spawnLoop] (by simp) (by simp)
    | simp at hok

/-- `MicrobitDevice.handle_rpc` acks exactly once, before any
notification it triggers, whenever the handler completes without
raising. -/
theorem Microbit.microbit_handle_one_ack (d : Microbit.MicrobitDevice) (msg : InMsg)
    (hok : (d.handle_rpc msg).error = none) :
    countAck (d.handle_rpc msg).effects msg.id = 1 ∧
    sendsBeforeAck (d.handle_rpc msg).effects msg.id = 0 := by
  simp only [Microbit.MicrobitDevice.handle_rpc] at hok ⊢
  split_ifs at hok ⊢ with h1 h2 h3 h4 h5 h6
  · exact one_ack_shape msg.id [] [Effect.send (OutMsg.didDiscoverPeripheral _ _ _)]
      (by simp) (by simp)
  · exact one_ack_shape msg.id [] [] (by simp) (by simp)
  · exact Microbit.microbit_start_one_ack _ msg.id msg.params hok
  · simp only [Microbit.MicrobitDevice.stop_notifications]
    split_ifs
    all_goals
      first
      | exact one_ack_shape msg.id [] [Effect.cancelLoop] (by simp) (by simp)
      | exact one_ack_shape msg.id [] [] (by simp) (by simp)
  · simp only [Microbit.MicrobitDevice.write]
    split_ifs
    all_goals
      first
      | exact one_ack_shape msg.id [] [] (by simp) (by simp)
      | exact one_ack_shape msg.id [Effect.displayText _] [] (by simp [Effect.isSend]) (by simp)
      | exact one_ack_shape msg.id [Effect.clearDisplay] [] (by simp [Effect.isSend]) (by simp)
      | exact one_ack_shape msg.id [Effect.displayMatrix _] [] (by simp [Effect.isSend]) (by simp)
      | exact one_ack_shape msg.id [Effect.setPixel _ _ _] [] (by simp [Effect.isSend]) (by simp)
  · simp only [Microbit.MicrobitDevice.read] at hok ⊢
    split_ifs at hok ⊢
    · exact Microbit.microbit_start_one_ack _ msg.id msg.params hok
    · exact one_ack_shape msg.id [] [] (by simp) (by simp)
  · exact one_ack_shape msg.id [] [] (by simp) (by simp)

/-- Claim C3, counterexample: with two peripherals registered on one session
(as `main.py` does), a single `connect` request with id 7 is answered by
two correlated `{id, result}` responses — one per peripheral — not
exactly one; and for `discover`, the second peripheral's response is
sent only after the first peripheral's `didDiscoverPeripheral`
notification, so the unique-ack-before-any-notification invariant fails
as stated. -/
theorem C3_counterexample_two_acks :
    countAck (hubStep defaultMotorHook [Periph.wedo {}, Periph.microbit {}]
        { method := "connect", id := some 7 }).2 (some 7) = 2 ∧
    (hubStep defaultMotorHook [Periph.wedo {}, Periph.microbit {}]
        { method := "discover", id := some 9 }).2 =
      [Effect.send (OutMsg.ack (some 9)),
       Effect.send (OutMsg.didDiscoverPeripheral "Fake-Wedo" "FAKE-WEDO-1234" (-40)),
       Effect.send (OutMsg.ack (some 9)),
       Effect.send (OutMsg.didDiscoverPeripheral "Fake-Microbit" "FAKE-WEDO-1234" (-40))] := by
  decide

/-- Claim C3, amended: per registered peripheral, every request whose
handler completes without raising receives exactly one correlated
`{id, result}` response, sent before any notification that peripheral's
handler triggers; a session with a single registered peripheral
therefore emits exactly one correlated response before any triggered
notification, while a session with `n` peripherals emits `n` (one per
peripheral, interleaved with the earlier peripherals' notifications). -/
theorem C3_single_peripheral_ack_then_notify
    (per : Periph) (cb : MotorCall → Except String Unit) (msg : InMsg)
    (hok : (per.handle_rpc cb msg).error = none) :
    countAck (per.handle_rpc cb msg).effects msg.id = 1 ∧
    sendsBeforeAck (per.handle_rpc cb msg).effects msg.id = 0 ∧
    (hubStep cb [per] msg).2 = (per.handle_rpc cb msg).effects := by
  have hhub : (hubStep cb [per] msg).2 = (per.handle_rpc cb msg).effects := by
    simp [hubStep, hok]
  cases per with
  | wedo d =>
    have hok' : (d.handle_rpc cb msg).error = none := by
      simpa [Periph.handle_rpc] using hok
    have h := Wedo.wedo_handle_one_ack d cb msg hok'
    exact ⟨by simpa [Periph.handle_rpc] using h.1, by simpa [Periph.handle_rpc] using h.2, hhub⟩
  | microbit d =>
    have hok' : (d.handle_rpc msg).error = none := by
      simpa [Periph.handle_rpc] using hok
    have h := Microbit.microbit_handle_one_ack d msg hok'
    exact ⟨by simpa [Periph.handle_rpc] using h.1, by simpa [Periph.handle_rpc] using h.2, hhub⟩

/-- Witness for the amended C3 at a concrete single-WeDo session and a
`startNotifications` request on the ports pair. -/
theorem C3_single_peripheral_ack_then_notify_witness :
    countAck ((Periph.wedo (Wedo.WeDoDevice.init "Fake-Wedo" [(1, "motor")])).handle_rpc
        defaultMotorHook
        { method := "startNotifications", id := some 4, params := Wedo.portsPair }).effects
      (some 4) = 1 :=
  (C3_single_peripheral_ack_then_notify
    (Periph.wedo (Wedo.WeDoDevice.init "Fake-Wedo" [(1, "motor")])) defaultMotorHook
    { method := "startNotifications", id := some 4, params := Wedo.portsPair }
    (by decide)).1

/-- Claim C4, counterexample: on a device with ports `{1: motor, 2: tilt}`,
the attach frame emitted for the second configured port carries role
byte `0x00` — `encode_attach` hard-codes `0x00` for every port — whereas
the claim requires `0x01` for every subsequent port. -/
theorem C4_role_byte_counterexample :
    ((Wedo.WeDoDevice.init "Fake-Wedo" [(1, "motor"), (2, "tilt")]).start_notifications
        (some 1) Wedo.portsPair).effects.getD 2 Effect.spawnLoop =
      Effect.send (OutMsg.characteristicDidChange (SvcId.str Wedo.UUID.PORT_SERVICE)
        Wedo.UUID.PORT_CHAR (b64 [2, 1, 0, 0x22, 0, 1, 1, 0x10, 0, 0, 0, 0x10])) ∧
    pythonB64Decode (b64 [2, 1, 0, 0x22, 0, 1, 1, 0x10, 0, 0, 0, 0x10]) =
      some [2, 1, 0, 0x22, 0, 1, 1, 0x10, 0, 0, 0, 0x10] ∧
    [2, 1, 0, 0x22, 0, 1, 1, 0x10, 0, 0, 0, 0x10] ≠
      [2, 1, 1, 0x22, 0, 1, 1, 0x10, 0, 0, 0, 0x10] := by
  decide

/-- Claim C4, amended: for every configured port and device kind, the
encoded attach frame is `[port, 0x01, 0x00, deviceTypeCode, ...fixed
trailer]` — the role byte is always `0x00`, for first and subsequent
ports alike — with `deviceTypeCode` looked up from the fixed table
motor=0x01, tilt=0x22, distance=0x23, and encoding an unknown device
kind fails with a hard error (`KeyError`) rather than silently
defaulting. -/
theorem C4_attach_frame_fixed_role (port : Nat) (device : String) (code : Nat) :
    (Wedo.DEVICE_TYPES device = some code →
      Wedo.encodeAttachBytes port device =
        some [port, 0x01, 0x00, code, 0x00, 0x01, 0x01, 0x10, 0x00, 0x00, 0x00, 0x10] ∧
      Wedo.encode_attach port device =
        some (b64 [port, 0x01, 0x00, code, 0x00, 0x01, 0x01, 0x10, 0x00, 0x00, 0x00, 0x10])) ∧
    (Wedo.DEVICE_TYPES device = none → Wedo.encode_attach port device = none) ∧
    Wedo.DEVICE_TYPES "motor" = some 0x01 ∧
    Wedo.DEVICE_TYPES "tilt" = some 0x22 ∧
    Wedo.DEVICE_TYPES "distance" = some 0x23 := by
  refine ⟨fun h => ?_, fun h => ?_, by decide, by decide, by decide⟩
  · constructor
    · simp [Wedo.encodeAttachBytes, h]
    · simp [Wedo.encode_attach, Wedo.encodeAttachBytes, h]
  · simp [Wedo.encode_attach, Wedo.encodeAttachBytes, h]

/-- Witness for the amended C4 at port 2 with kind `tilt`. -/
theorem C4_attach_frame_fixed_role_witness :
    Wedo.DEVICE_TYPES "tilt" = some 0x22 ∧
    Wedo.encode_attach 2 "tilt" =
      some (b64 [2, 0x01, 0x00, 0x22, 0x00, 0x01, 0x01, 0x10, 0x00, 0x00, 0x00, 0x10]) :=
  ⟨by decide, ((C4_attach_frame_fixed_role 2 "tilt" 0x22).1 (by decide)).2⟩

/-- Claim C5, code bug: the repository's own test
(`tests/test_wedo.py::test_encode_sensor_all_types_and_errors`, also the
`[0x05, 3, 250]` assertion at line 44) requires the distance sensor
frame for port 3 to be `[0x05, 3, clampedValue]`, as the claim states;
`encode_sensor` instead hard-codes the port byte to `0x01`, producing
`[0x05, 1, 250]`. The motor/tilt branches use the real port, and the
value-byte round-trip still holds. -/
theorem C5_distance_frame_port_byte_bug :
    Wedo.encodeSensorBytes
        ((Wedo.WeDoDevice.init "Fake-Wedo" [(3, "distance")]).set_distance 250)
        3 "distance" = some [0x05, 0x01, 250] ∧
    some [0x05, 0x01, 250] ≠ some [0x05, 3, 250] ∧
    ((Wedo.WeDoDevice.init "Fake-Wedo" [(3, "distance")]).set_distance 250).encode_sensor
        3 "distance" = some (b64 [0x05, 0x01, 250]) ∧
    pythonB64Decode (b64 [0x05, 0x01, 250]) = some [0x05, 0x01, 250] ∧
    Wedo.encodeSensorBytes
        ((Wedo.WeDoDevice.init "Fake-Wedo" [(1, "motor"), (2, "tilt")]).set_tilt 12 34)
        2 "tilt" = some [0x05, 2, 12, 34] ∧
    Wedo.encodeSensorBytes (Wedo.WeDoDevice.init "Fake-Wedo" [(1, "motor")])
        1 "motor" = some [0x05, 1, 100] := by
  decide

/-- Claim C6, counterexample: when the `on_motor_power` callback raises, the
exception is *not* caught inside `WeDoDevice.write`: it escapes the
handler after the callback effect and before the ack line, so no RPC
ack is sent for that write. -/
theorem C6_counterexample_callback_exception :
    ((Wedo.WeDoDevice.init "Fake-Wedo" [(1, "motor")]).write (fun _ => Except.error "boom")
        (some 9) { message := some "AQAA/w==" }).error = some "boom" ∧
    countAck ((Wedo.WeDoDevice.init "Fake-Wedo" [(1, "motor")]).write
        (fun _ => Except.error "boom") (some 9)
        { message := some "AQAA/w==" }).effects (some 9) = 0 := by
  decide

/-- Claim C6, amended: a callback exception during a motor-control write
propagates out of the write handler — the RPC ack for that write is
never sent — and is caught and logged at the session dispatch loop, so
the session survives and keeps answering subsequent requests. -/
theorem C6_callback_exception_skips_ack
    (dev : Wedo.WeDoDevice) (cb : MotorCall → Except String Unit)
    (mid mid2 : Option Int) (p : Params) (data : List Nat) (e : String)
    (hdec : pythonB64Decode (p.message.getD "") = some data)
    (hlen : 3 ≤ data.length)
    (hcb : ∀ c, cb c = Except.error e) :
    (dev.write cb mid p).error = some e ∧
    countAck (dev.write cb mid p).effects mid = 0 ∧
    countAck (hubStep cb [Periph.wedo dev] { method := "write", id := mid, params := p }).2
      mid = 0 ∧
    countAck (hubRun cb [Periph.wedo dev]
        [{ method := "write", id := mid, params := p },
         { method := "connect", id := mid2, params := {} }]).2 mid2 = 1 := by
  have hwrite : ∀ dv : Wedo.WeDoDevice, ∃ st c,
      dv.write cb mid p = ⟨st, [Effect.callback c], some e⟩ := by
    intro dv
    simp only [Wedo.WeDoDevice.write, hdec]
    rw [if_pos hlen, hcb _]
    exact ⟨_, _, rfl⟩
  obtain ⟨st0, c0, hw0⟩ := hwrite dev
  obtain ⟨st1, c1, hw1⟩ := hwrite { dev with wsAttached := true }
  have hstep : hubStep cb [Periph.wedo dev] { method := "write", id := mid, params := p } =
      ([Periph.wedo st1], [Effect.callback c1]) := by
    simp [hubStep, Periph.handle_rpc, Wedo.WeDoDevice.handle_rpc, hw1]
  refine ⟨by rw [hw0], by rw [hw0]; simp [countAck], by rw [hstep]; simp [countAck], ?_⟩
  have hconn : Periph.handle_rpc cb (Periph.wedo st1)
      { method := "connect", id := mid2, params := {} } =
      ⟨Periph.wedo { st1 with wsAttached := true },
        [Effect.send (OutMsg.ack mid2)], none⟩ := by
    simp [Periph.handle_rpc, Wedo.WeDoDevice.handle_rpc, Wedo.WeDoDevice.discover]
  have hstep2 : hubStep cb [Periph.wedo st1]
      { method := "connect", id := mid2, params := {} } =
      ([Periph.wedo { st1 with wsAttached := true }], [Effect.send (OutMsg.ack mid2)]) := by
    simp [hubStep, hconn]
  have hrun : (hubRun cb [Periph.wedo dev]
      [{ method := "write", id := mid, params := p },
       { method := "connect", id := mid2, params := {} }]).2 =
      [Effect.callback c1] ++ ([Effect.send (OutMsg.ack mid2)] ++ []) := by
    simp only [hubRun, hstep, hstep2]
  rw [hrun]
  simp [countAck]

/-- Witness for the amended C6: a raising callback on the spec's motor
write payload `[1, 0, 0, 0xFF]`. -/
theorem C6_callback_exception_skips_ack_witness :
    pythonB64Decode "AQAA/w==" = some [1, 0, 0, 255] ∧
    ((Wedo.WeDoDevice.init "Fake-Wedo" [(1, "motor")]).write (fun _ => Except.error "oops")
        (some 3) { message := some "AQAA/w==" }).error = some "oops" :=
  ⟨by decide,
    (C6_callback_exception_skips_ack (Wedo.WeDoDevice.init "Fake-Wedo" [(1, "motor")])
      (fun _ => Except.error "oops") (some 3) (some 4) { message := some "AQAA/w==" }
      [1, 0, 0, 255] "oops" (by decide) (by decide) (fun _ => rfl)).1⟩

/-- Claim C7: the `accelerometer` operation validates each component against the signed
16-bit range: any out-of-range component raises `ValueError` and sends
nothing; with all components in range (and a transport attached, as
during a session) it sends exactly one notification whose 6-byte
payload is x, y, z encoded as signed 16-bit little-endian values. -/
theorem C7_accelerometer_validation
    (dev : Microbit.MicrobitDevice) (x y z : Int) :
    ((¬(-32768 ≤ x ∧ x ≤ 32767) ∨ ¬(-32768 ≤ y ∧ y ≤ 32767) ∨ ¬(-32768 ≤ z ∧ z ≤ 32767)) →
      dev.accelerometer x y z = ⟨dev, [], some "ValueError"⟩) ∧
    ((-32768 ≤ x ∧ x ≤ 32767) → (-32768 ≤ y ∧ y ≤ 32767) → (-32768 ≤ z ∧ z ≤ 32767) →
      dev.wsAttached = true →
      dev.accelerometer x y z =
        ⟨dev, [Effect.send (OutMsg.characteristicDidChange
            (SvcId.str Microbit.UUID.ACCEL_SERVICE) Microbit.UUID.ACCEL_DATA_CHAR
            (b64 (Microbit.sint16le x ++ Microbit.sint16le y ++ Microbit.sint16le z)))],
          none⟩ ∧
      (Microbit.sint16le x ++ Microbit.sint16le y ++ Microbit.sint16le z).length = 6) := by
  constructor
  · intro h
    unfold Microbit.MicrobitDevice.accelerometer
    split_ifs with h1 h2 h3
    all_goals
      first
      | rfl
      | (exfalso; rcases h with h | h | h <;> simp_all)
  · intro hx hy hz hws
    unfold Microbit.MicrobitDevice.accelerometer Microbit.MicrobitDevice.notify
    rw [if_neg (not_not_intro hx), if_neg (not_not_intro hy), if_neg (not_not_intro hz),
      if_pos hws]
    exact ⟨rfl, by simp [Microbit.sint16le]⟩

/-- Witness for C7: out-of-range `x = 40000` raises and sends nothing;
in-range `(0, 800, 1000)` sends exactly one accelerometer notification. -/
theorem C7_accelerometer_validation_witness :
    Microbit.MicrobitDevice.accelerometer { wsAttached := true } 40000 0 0 =
      ⟨{ wsAttached := true }, [], some "ValueError"⟩ ∧
    Microbit.MicrobitDevice.accelerometer { wsAttached := true } 0 800 1000 =
      ⟨{ wsAttached := true }, [Effect.send (OutMsg.characteristicDidChange
          (SvcId.str Microbit.UUID.ACCEL_SERVICE) Microbit.UUID.ACCEL_DATA_CHAR
          (b64 (Microbit.sint16le 0 ++ Microbit.sint16le 800 ++ Microbit.sint16le 1000)))],
        none⟩ :=
  ⟨(C7_accelerometer_validation { wsAttached := true } 40000 0 0).1 (by decide),
    ((C7_accelerometer_validation { wsAttached := true } 0 800 1000).2
      (by decide) (by decide) (by decide) rfl).1⟩

/-- Claim C8, counterexample: the WeDo `write` handler decodes
`params.message` with a bare `base64.b64decode`: the malformed base64
string `"QQ"` raises `binascii.Error` out of the handler (no empty-byte
fallback, no ack), refuting "for every write handler ... decoding the
base64 payload never throws". -/
theorem C8_counterexample_wedo_decode_raises :
    pythonB64Decode "QQ" = none ∧
    ((Wedo.WeDoDevice.init "Fake-Wedo" [(1, "motor")]).write defaultMotorHook (some 9)
        { message := some "QQ" }).error = some "binascii.Error" ∧
    ((Wedo.WeDoDevice.init "Fake-Wedo" [(1, "motor")]).write defaultMotorHook (some 9)
        { message := some "QQ" }).effects = [] := by
  decide

/-- Claim C8, amended: the micro:bit handlers decode through
`b64_to_bytes`, which never throws — a missing or malformed base64
string yields the empty byte sequence and the handler still acks — and
the `write` handler never raises for any `params.message`; the WeDo
`write` handler, by contrast, calls `base64.b64decode` directly, so a
malformed string raises out of the handler (skipping the motor handling
and the ack); the session dispatch loop catches that exception, so the
dispatcher itself never crashes. -/
theorem C8_base64_decode_safety
    (dev : Microbit.MicrobitDevice) (mid : Option Int) (p : Params)
    (d : Wedo.WeDoDevice) (cb : MotorCall → Except String Unit) :
    (Microbit.MicrobitDevice.write dev mid p).error = none ∧
    (Microbit.MicrobitDevice.write dev mid p).effects.getLast? =
      some (Effect.send (OutMsg.ack mid)) ∧
    b64_to_bytes "" = [] ∧
    b64_to_bytes "QQ" = [] ∧
    (d.write cb mid { message := some "QQ" }).error = some "binascii.Error" ∧
    countAck (d.write cb mid { message := some "QQ" }).effects mid = 0 ∧
    (hubStep cb [Periph.wedo d]
        { method := "write", id := mid, params := { message := some "QQ" } }).2 = [] := by
  have hqq : pythonB64Decode "QQ" = none := by decide
  have hwq : ∀ dv : Wedo.WeDoDevice, dv.write cb mid { message := some "QQ" } =
      ⟨dv, [], some "binascii.Error"⟩ := by
    intro dv
    simp [Wedo.WeDoDevice.write, hqq]
  refine ⟨rfl, ?_, by decide, by decide, by rw [hwq], by rw [hwq]; simp [countAck], ?_⟩
  · simp only [Microbit.MicrobitDevice.write]
    exact List.getLast?_concat _
  · simp [hubStep, Periph.handle_rpc, Wedo.WeDoDevice.handle_rpc, hwq]

/-- Claim C9, code bug: the top-level `microbit.py` draft's `_push_loop`
executes a bare `raise Exception()` right after the `HEARTBEAT_HZ`
guard, so the spawned task dies before its first sleep or send — the
entire `while` body below it is dead code. The claim (and the package
version `scratchlink_fakehub/microbit.py`, whose loop iteration sleeps
one period and then emits the heartbeat notification, and the WeDo
loop, which emits one frame per configured port and then sleeps) shows
the intended behaviour. -/
theorem C9_flat_push_loop_dies_before_first_send :
    Microbit.flatPushLoopEntry 1 = LoopStep.fail [] "Exception" ∧
    Microbit.pushLoopEntry 1 = some 1000 ∧
    Microbit.MicrobitDevice.push_loop_iter 1000
        { wsAttached := true, notifications_rx := true, pushTask := true } =
      LoopStep.next
        { wsAttached := true, notifications_rx := true, pushTask := true, hb_t := 1 }
        [Effect.sleep 1000,
         Effect.send (OutMsg.characteristicDidChange (SvcId.num Microbit.UUID.SVC_ID)
           Microbit.UUID.CHAR_RX (b64 (Microbit.heartbeat_payload 1)))] ∧
    Wedo.WeDoDevice.push_loop_iter
        { (Wedo.WeDoDevice.init "Fake-Wedo" [(1, "motor")]) with
            notifications_sensor := true, wsAttached := true } =
      LoopStep.next
        { (Wedo.WeDoDevice.init "Fake-Wedo" [(1, "motor")]) with
            notifications_sensor := true, wsAttached := true }
        [Effect.send (OutMsg.characteristicDidChange (SvcId.str Wedo.UUID.PORT_SERVICE)
            Wedo.UUID.PORT_CHAR (b64 [0x05, 1, 100])),
         Effect.sleep 500] := by
  decide

/-- Witness for C1 at a concrete one-motor WeDo device and a fresh
micro:bit device. -/
theorem C1_start_twice_single_activation_witness :
    (((Wedo.WeDoDevice.init "Fake-Wedo" [(1, "motor")]).start_notifications (some 1)
        Wedo.portsPair).state.start_notifications (some 2) Wedo.portsPair).effects
      = [Effect.send (OutMsg.ack (some 2))] :=
  (C1_start_twice_single_activation
    (Wedo.WeDoDevice.init "Fake-Wedo" [(1, "motor")]) {} (some 1) (some 2)
    rfl rfl rfl (by decide) rfl rfl).1.1

end FakeHub


